import Mathlib

/-!
Verification of the AI-Consultant deck generator against its
natural-language specification.

The Lean definitions below are shallow embeddings of the Python source:

* `LLMClientModel` embeds the JSON-extraction fallback of
  `consulting_deck_generator/llm/client.py` (`step1_engagement_structuring`,
  `step2_data_generation`, `step3_content_generation`) and the per-call
  temperatures those three steps pass to `_generate_response`.
* `FullyDynamic` embeds `fully_dynamic_deck_generator.py`: the fallback
  blueprint (`DynamicDeckAnalyzer._generate_fallback_blueprint`), the
  per-slide content loop with its deterministic fallback
  (`FullyDynamicMcKinseyGenerator._generate_dynamic_slide_content` /
  `generate_fully_dynamic_deck`), research-query assembly and
  primary-source trimming (`_conduct_dynamic_research`), the growth
  trajectory synthesis in `_generate_dynamic_charts`, and the y-axis
  label inference (`DynamicChartGenerator._get_dynamic_ylabel`).
* `ConsultingDeck` embeds the PowerPoint rendering loop of
  `consulting_deck_generator/core/orchestrator.py` (`_render_powerpoint`).

Machine reals (Python floats) are modelled as exact rationals; Python
dicts keyed by strings are modelled as association lists or lookup
functions; a call that can raise (text-generation service, `json.loads`)
is modelled by an `Option`-valued oracle parameter, `none` meaning the
call raised.
-/

namespace LLMClientModel

/-- Embeds Python `str.find(c)` scanning: index of the first occurrence of
`c` counting from `n`, or `none`. -/
def pyFindAux (c : Char) : List Char → Nat → Option Nat
  | [], _ => none
  | x :: xs, n => if x = c then some n else pyFindAux c xs (n + 1)

/-- Python `s.find(c)`: index of the first occurrence of `c` in `s`, or `-1`. -/
def pyFind (s : String) (c : Char) : Int :=
  match pyFindAux c s.toList 0 with
  | some n => (n : Int)
  | none => -1

/-- Embeds Python `str.rfind(c)`: the accumulator keeps the most recent
occurrence seen so far, so the final value is the last occurrence. -/
def pyRfindAux (c : Char) : List Char → Nat → Option Nat → Option Nat
  | [], _, acc => acc
  | x :: xs, n, acc => pyRfindAux c xs (n + 1) (if x = c then some n else acc)

/-- Python `s.rfind(c)`: index of the last occurrence of `c` in `s`, or `-1`. -/
def pyRfind (s : String) (c : Char) : Int :=
  match pyRfindAux c s.toList 0 none with
  | some n => (n : Int)
  | none => -1

/-- Python slice `s[a:b]` for non-negative bounds `a`, `b`. -/
def pySlice (s : String) (a b : Nat) : String :=
  String.mk ((s.toList.take b).drop a)

/-- Outcome of the JSON handling in `LLMClient.step1_engagement_structuring`
(lines 74-84 of `llm/client.py`; steps 2 and 3 share the identical shape):
`ok` is a successful `json.loads`, `decodeError s` is an uncaught
`json.JSONDecodeError` raised by `json.loads(s)` inside the `except`
handler, and `explicitError` is the explicit
`raise Exception("Failed to parse LLM response as JSON")`. -/
inductive ParseOutcome (J : Type) where
  | ok (value : J)
  | decodeError (attempted : String)
  | explicitError (msg : String)
deriving DecidableEq

/-- Embeds the response handling of `LLMClient.step1_engagement_structuring`:
try `json.loads` on the whole response; on `JSONDecodeError` compute
`start = response.find('{')` and `end = response.rfind('}') + 1`, and if
`start != -1 and end != -1` retry `json.loads` on `response[start:end]`
(an uncaught decode error if that fails too); otherwise raise the explicit
exception.  `jsonLoads` embeds `json.loads`, `none` meaning
`json.JSONDecodeError`. -/
def extractJson {J : Type} (jsonLoads : String → Option J) (response : String) :
    ParseOutcome J :=
  match jsonLoads response with
  | some v => ParseOutcome.ok v
  | none =>
    if pyFind response '{' ≠ -1 ∧ pyRfind response '}' + 1 ≠ -1 then
      match jsonLoads
          (pySlice response (pyFind response '{').toNat
            (pyRfind response '}' + 1).toNat) with
      | some v => ParseOutcome.ok v
      | none =>
        ParseOutcome.decodeError
          (pySlice response (pyFind response '{').toNat
            (pyRfind response '}' + 1).toNat)
    else
      ParseOutcome.explicitError "Failed to parse LLM response as JSON"

/-- Default `temperature` of `LLMClient._generate_response` (line 12 of
`llm/client.py`), overridden by every step's call. -/
def defaultTemperature : ℚ := 7 / 10

/-- Temperature passed by `step1_engagement_structuring` (line 72):
`self._generate_response(prompt, temperature=0.3)`. -/
def step1Temperature : ℚ := 3 / 10

/-- Temperature passed by `step2_data_generation` (line 147):
`self._generate_response(prompt, temperature=0.2)`. -/
def step2Temperature : ℚ := 2 / 10

/-- Temperature passed by `step3_content_generation` (line 205):
`self._generate_response(prompt, temperature=0.1)`. -/
def step3Temperature : ℚ := 1 / 10

end LLMClientModel

namespace FullyDynamic

/-- A slide-blueprint dict as produced in `fully_dynamic_deck_generator.py`
(the keys used by `_generate_fallback_blueprint` and
`_generate_dynamic_slide_content`). -/
structure BlueprintEntry where
  slide_number : Nat
  title : String
  purpose : String
  visual_type : String
  content_type : String
  key_message : String
  business_question : String
  estimated_time : String
deriving DecidableEq

/-- The two fixed lead entries (`core_slides`) of
`DynamicDeckAnalyzer._generate_fallback_blueprint` (lines 284-305). -/
def coreSlides : List BlueprintEntry :=
  [{ slide_number := 1
     title := "Capture Strategic Opportunity"
     purpose := "executive_summary"
     visual_type := "title_only"
     content_type := "executive_summary"
     key_message := "Clear articulation of market potential"
     business_question := "What is the strategic opportunity?"
     estimated_time := "2-3 minutes" },
   { slide_number := 2
     title := "Define Core Hypothesis"
     purpose := "hypothesis"
     visual_type := "framework"
     content_type := "hypothesis"
     key_message := "Testable strategic premise"
     business_question := "What do we believe to be true?"
     estimated_time := "3-4 minutes" }]

/-- The generic analysis entries (`additional_slides`) of
`_generate_fallback_blueprint`: `for i in range(2, min(slide_count, 10))`,
each slide numbered `i + 1` (lines 308-319). -/
def additionalSlides (slideCount : Nat) : List BlueprintEntry :=
  (List.range' 2 (min slideCount 10 - 2)).map fun i =>
    { slide_number := i + 1
      title := "Strategic Analysis Component " ++ toString i
      purpose := "analysis"
      visual_type := "bar_chart"
      content_type := "analysis"
      key_message := "Key insight for component " ++ toString i
      business_question := "What does this analysis reveal?"
      estimated_time := "3-4 minutes" }

/-- Embeds `DynamicDeckAnalyzer._generate_fallback_blueprint(slide_count)`:
`core_slides + additional_slides[:max(0, slide_count - len(core_slides))]`
(line 321; natural subtraction supplies the `max(0, ...)`). -/
def generateFallbackBlueprint (slideCount : Nat) : List BlueprintEntry :=
  coreSlides ++ (additionalSlides slideCount).take (slideCount - 2)

/-- A generated slide-content dict of
`FullyDynamicMcKinseyGenerator._generate_dynamic_slide_content`
(the keys of both the parsed JSON and the fallback dict, lines 639-652). -/
structure ContentUnit where
  slide_number : Nat
  title : String
  purpose : String
  visual_type : String
  pyramid_lead : String
  supporting_points : List String
  chart_insight : String
  so_what_takeaway : String
  next_steps : List String
  evidence_sources : List String
  presentation_notes : String
  estimated_impact : String
deriving DecidableEq

/-- The deterministic fallback content dict built in the `except` branch of
`_generate_dynamic_slide_content` (lines 639-652): identity fields come
from the blueprint entry and `pyramid_lead` from its `key_message`. -/
def fallbackContent (blueprint : BlueprintEntry) : ContentUnit :=
  { slide_number := blueprint.slide_number
    title := blueprint.title
    purpose := blueprint.purpose
    visual_type := blueprint.visual_type
    pyramid_lead := blueprint.key_message
    supporting_points := ["Analysis based on market research"]
    chart_insight := "Data supports strategic direction"
    so_what_takeaway := "Recommendation drives growth"
    next_steps := ["Execute strategic plan"]
    evidence_sources := ["Market research data"]
    presentation_notes := "Key insights for executive audience"
    estimated_impact := "High" }

/-- Embeds `_generate_dynamic_slide_content`: `genContent` is the oracle for
the generate-and-parse attempt (lines 629-635), `none` meaning any
exception (service failure or JSON parse failure); the `except` branch
returns the deterministic fallback. -/
def generateDynamicSlideContent (genContent : BlueprintEntry → Option ContentUnit)
    (blueprint : BlueprintEntry) : ContentUnit :=
  match genContent blueprint with
  | some contentData => contentData
  | none => fallbackContent blueprint

/-- Embeds the step-4 content loop of `generate_fully_dynamic_deck`
(lines 363-367): one `_generate_dynamic_slide_content` call appended per
blueprint entry. -/
def generateContentSlides (genContent : BlueprintEntry → Option ContentUnit)
    (slideBlueprint : List BlueprintEntry) : List ContentUnit :=
  slideBlueprint.map (generateDynamicSlideContent genContent)

/-- The hardcoded fallback query built in `_conduct_dynamic_research`
(line 433): `f"{problem} {area} analysis 2024"`. -/
def fallbackQuery (problem area : String) : String :=
  problem ++ " " ++ area ++ " analysis 2024"

/-- Modelled from the spec: the fallback query format the spec prescribes,
`"{problem} {focus_area} analysis {current_year}"`, with the current year
(the year at the time of the run) as a parameter. -/
def specFallbackQuery (problem area : String) (currentYear : Nat) : String :=
  problem ++ " " ++ area ++ " analysis " ++ toString currentYear

/-- Embeds the per-focus-area query generation of `_conduct_dynamic_research`
(lines 427-433): `genQueries` is the oracle for the generation call
returning the stripped non-empty response lines (`none` = the call
raised); on success at most 3 queries are kept (`area_queries[:3]`), on
failure the single hardcoded fallback query is substituted. -/
def queriesForArea (genQueries : String → Option (List String))
    (problem area : String) : List String :=
  match genQueries area with
  | some areaQueries => areaQueries.take 3
  | none => [fallbackQuery problem area]

/-- Embeds the query-assembly loop plus `search_queries[:12]` (lines 413-436). -/
def searchQueries (genQueries : String → Option (List String))
    (problem : String) (focusAreas : List String) : List String :=
  (focusAreas.flatMap (queriesForArea genQueries problem)).take 12

/-- A collected search result as built in `_conduct_dynamic_research`
(lines 453-462); `score` is the search service's relevance score. -/
structure SearchSource where
  title : String
  url : String
  content : String
  score : ℚ
  query_used : String
deriving DecidableEq

/-- Embeds the pool accumulation: `primary_sources.extend(...)` per query, in
query order then result order (lines 442-462). -/
def collectPrimarySources (searchResults : List (String × List SearchSource)) :
    List SearchSource :=
  searchResults.flatMap Prod.snd

/-- Embeds the trimming `primary_sources[:15]` in the returned dict
(line 536). -/
def retainedPrimarySources (pool : List SearchSource) : List SearchSource :=
  pool.take 15

/-- A pool witnessing that trimming ignores relevance scores: fifteen
score-0 results collected before one score-1 result. -/
def plainSource (name : String) (score : ℚ) : SearchSource :=
  { title := name, url := "", content := "", score := score, query_used := "q" }

/-- Concrete source pool: 15 zero-score results followed by a high-score one. -/
def demoPool : List SearchSource :=
  (List.range 15).map (fun i => plainSource ("result " ++ toString i) 0)
    ++ [plainSource "late high-relevance result" 1]

/-- Python `str.replace('%', '')`: removes every `'%'`. -/
def stripPercent (s : String) : String :=
  String.mk (s.toList.filter (fun c => c ≠ '%'))

/-- Digits-to-number accumulator for the decimal parser. -/
def digitsToNat (cs : List Char) : Nat :=
  cs.foldl (fun acc c => 10 * acc + (c.toNat - 48)) 0

/-- True when `cs` is a non-empty run of ASCII digits. -/
def isDigitRun (cs : List Char) : Bool :=
  !cs.isEmpty && cs.all Char.isDigit

/-- Models Python `float(...)` restricted to non-negative decimal numerals
(`"10"`, `"15.2"`, ...), the shapes fed to it by
`_generate_dynamic_charts`; the value is exact (a rational), standing in
for the binary float. -/
def parseFloatQ (s : String) : Option ℚ :=
  match s.toList.splitOn '.' with
  | [whole] =>
    if isDigitRun whole then some ((digitsToNat whole : Nat) : ℚ) else none
  | [whole, frac] =>
    if isDigitRun whole && isDigitRun frac then
      some (((digitsToNat whole : Nat) : ℚ)
        + ((digitsToNat frac : Nat) : ℚ) / (10 : ℚ) ^ frac.length)
    else none
  | _ => none

/-- Embeds the growth-trajectory synthesis of `_generate_dynamic_charts`
(lines 688-691): `cagr = float(cagr_3yr.replace('%', '')) / 100`,
`base_value = 100`, `base_growth = [base_value * (1 + cagr) ** i for i in
range(5)]`.  `none` models `float()` raising `ValueError`. -/
def growthTrajectory (cagr3yr : String) : Option (List ℚ) :=
  (parseFloatQ (stripPercent cagr3yr)).map fun parsed =>
    let cagr := parsed / 100
    let baseValue : ℚ := 100
    (List.range 5).map fun i => baseValue * (1 + cagr) ^ i

/-- Embeds `DynamicChartGenerator._get_dynamic_ylabel` (lines 129-144):
label chosen by inspecting the literal formatting of `str(values[0])`. -/
def getDynamicYlabel (values : List String) : String :=
  match values with
  | [] => "Value"
  | sampleValue :: _ =>
    if sampleValue.toList.contains '$' || sampleValue.toList.contains 'B'
        || sampleValue.toList.contains 'M' then
      "Market Size ($ Billions)"
    else if sampleValue.toList.contains '%' then
      "Percentage (%)"
    else if sampleValue.toList.any Char.isDigit then
      "Metric Value"
    else
      "Value"

end FullyDynamic

namespace ConsultingDeck

/-- `SlideBlueprint` dataclass of `consulting_deck_generator/core/models.py`. -/
structure SlideBlueprint where
  slide_id : String
  title : String
  key_question : String
  core_insight : String
  visual_type : String
  data_requirements : List String
  position_in_deck : Nat
  slide_template : String
deriving DecidableEq

/-- The `chart_data` dict of a `SlideData`: generic payload entries plus the
`quadrants` list (names only) read by the framework branch.  Python dict
truthiness is `isTruthy`. -/
structure ChartData where
  entries : List (String × String)
  quadrants : List String
deriving DecidableEq

/-- Python truthiness of the `chart_data` dict: non-empty. -/
def ChartData.isTruthy (cd : ChartData) : Bool :=
  !cd.entries.isEmpty || !cd.quadrants.isEmpty

/-- `SlideData` dataclass of `core/models.py` (fields the renderer reads). -/
structure SlideData where
  slide_id : String
  chart_data : ChartData
  table_data : Option (List (List String))
  assumptions : List String
  sources : List String
deriving DecidableEq

/-- `SlideContent` dataclass of `core/models.py` (fields the renderer reads);
`visual_config` is modelled as an association list. -/
structure SlideContent where
  slide_id : String
  title : String
  bullets : List String
  chart_caption : Option String
  so_what_takeaway : Option String
  call_to_action : Option String
  visual_config : List (String × String)
deriving DecidableEq

/-- `DeckBlueprint` dataclass of `core/models.py`. -/
structure DeckBlueprint where
  engagement_id : String
  client_name : String
  problem_statement : String
  slides : List SlideBlueprint
  hypothesis : String
  methodology : String
deriving DecidableEq

/-- A slide added to the `python-pptx` presentation by one of the four
template constructors in `core/templates.py`. -/
inductive RenderedSlide where
  | titleSlide (title : String) (subtitle : String) (client : String)
  | twoColumn (title : String) (left : List String) (right : List String)
  | chartSlide (title : String) (chartBase64 : String) (caption : Option String)
  | frameworkSlide (title : String) (rows : List (List String))
deriving DecidableEq

/-- Title of a rendered slide. -/
def slideTitle : RenderedSlide → String
  | RenderedSlide.titleSlide t _ _ => t
  | RenderedSlide.twoColumn t _ _ => t
  | RenderedSlide.chartSlide t _ _ => t
  | RenderedSlide.frameworkSlide t _ => t

/-- Python `dict.get` on the modelled `visual_config`. -/
def lookupKey (cfg : List (String × String)) (k : String) : Option String :=
  (cfg.find? (fun p => p.1 = k)).map Prod.snd

/-- Embeds the `chart_base64` computation of the `chart_main` branch of
`DeckOrchestrator._render_powerpoint` (lines 160-179): it stays `None`
unless slide data exists, its `chart_data` is truthy and `visual_type` is
one of the three chart kinds; `chartGen` embeds the
`ChartGenerator.create_*_chart` calls (always returning a base64 string). -/
def computeChartMain (chartGen : String → ChartData → Option String → String)
    (bp : SlideBlueprint) (slideData : Option SlideData)
    (slideContent : Option SlideContent) : Option String :=
  match slideData with
  | none => none
  | some sd =>
    if sd.chart_data.isTruthy then
      let chartTitle := slideContent.bind fun sc => lookupKey sc.visual_config "chart_title"
      if bp.visual_type = "bar_chart" then
        some (chartGen "bar_chart" sd.chart_data chartTitle)
      else if bp.visual_type = "line_chart" then
        some (chartGen "line_chart" sd.chart_data chartTitle)
      else if bp.visual_type = "pie_chart" then
        some (chartGen "pie_chart" sd.chart_data chartTitle)
      else none
    else none

/-- Embeds one iteration of the `for i, slide_blueprint in
enumerate(sorted_slides)` loop of `_render_powerpoint` (lines 135-204):
the value is the slide added to the presentation, `none` when the
iteration adds nothing. -/
def renderSlideAt (chartGen : String → ChartData → Option String → String)
    (deck : DeckBlueprint) (contentLookup : String → Option SlideContent)
    (dataLookup : String → Option SlideData) (i : Nat) (bp : SlideBlueprint) :
    Option RenderedSlide :=
  let slideContent := contentLookup bp.slide_id
  let slideData := dataLookup bp.slide_id
  if i = 0 then
    some (RenderedSlide.titleSlide bp.title deck.hypothesis deck.client_name)
  else if bp.slide_template = "two_column" then
    match slideContent with
    | some sc =>
      let bullets := sc.bullets
      let leftCol := if bullets.length > 1 then bullets.take (bullets.length / 2) else bullets
      let rightCol := if bullets.length > 1 then bullets.drop (bullets.length / 2) else []
      some (RenderedSlide.twoColumn bp.title leftCol rightCol)
    | none => none
  else if bp.slide_template = "chart_main" then
    match computeChartMain chartGen bp slideData slideContent with
    | some chartBase64 =>
      some (RenderedSlide.chartSlide bp.title chartBase64
        (slideContent.bind SlideContent.chart_caption))
    | none => none
  else if bp.slide_template = "framework" then
    match slideData with
    | some sd =>
      if sd.chart_data.isTruthy then
        if !sd.chart_data.quadrants.isEmpty then
          some (RenderedSlide.frameworkSlide bp.title
            (if sd.chart_data.quadrants.length ≥ 4 then
              [sd.chart_data.quadrants.take 2, (sd.chart_data.quadrants.drop 2).take 2]
            else [sd.chart_data.quadrants.take 1]))
        else none
      else none
    | none => none
  else none

/-- The enumerate-and-render loop: slides added by successive iterations,
starting at index `i`. -/
def renderBody (chartGen : String → ChartData → Option String → String)
    (deck : DeckBlueprint) (contentLookup : String → Option SlideContent)
    (dataLookup : String → Option SlideData) :
    Nat → List SlideBlueprint → List RenderedSlide
  | _, [] => []
  | i, bp :: rest =>
    (renderSlideAt chartGen deck contentLookup dataLookup i bp).toList
      ++ renderBody chartGen deck contentLookup dataLookup (i + 1) rest

/-- Stable insertion by `position_in_deck`, embedding Python's stable
`sorted(blueprint.slides, key=lambda x: x.position_in_deck)` (line 129). -/
def insertByPosition (a : SlideBlueprint) : List SlideBlueprint → List SlideBlueprint
  | [] => [a]
  | b :: bs =>
    if a.position_in_deck ≤ b.position_in_deck then a :: b :: bs
    else b :: insertByPosition a bs

/-- Stable sort by `position_in_deck`. -/
def sortByPosition : List SlideBlueprint → List SlideBlueprint
  | [] => []
  | a :: as => insertByPosition a (sortByPosition as)

/-- Python dict-comprehension lookup `{s.slide_id: s for s in content_slides}`:
on duplicate ids the last occurrence wins. -/
def contentLookupOf (contentSlides : List SlideContent) (sid : String) :
    Option SlideContent :=
  contentSlides.reverse.find? (fun s => s.slide_id = sid)

/-- Python dict-comprehension lookup `{s.slide_id: s for s in data_slides}`. -/
def dataLookupOf (dataSlides : List SlideData) (sid : String) : Option SlideData :=
  dataSlides.reverse.find? (fun s => s.slide_id = sid)

/-- Embeds `DeckOrchestrator._render_powerpoint` as the list of slides added
to the presentation, in order. -/
def renderPowerpoint (chartGen : String → ChartData → Option String → String)
    (deck : DeckBlueprint) (contentSlides : List SlideContent)
    (dataSlides : List SlideData) : List RenderedSlide :=
  renderBody chartGen deck (contentLookupOf contentSlides) (dataLookupOf dataSlides)
    0 (sortByPosition deck.slides)

/-- A chart builder standing in for `ChartGenerator`: always yields a base64
payload, as `create_bar_chart` and friends do. -/
def demoChartGen (_chartType : String) (_data : ChartData) (_title : Option String) :
    String :=
  "iVBORw0KGgoAAAANSUhEUg"

/-- Demo blueprint slide 1: the title slide. -/
def demoTitleBp : SlideBlueprint :=
  { slide_id := "slide_01", title := "Engagement Overview", key_question := ""
    core_insight := "", visual_type := "none", data_requirements := []
    position_in_deck := 1, slide_template := "title_only" }

/-- Demo blueprint slide 2: a `chart_main` section whose visualization will
be null (no slide data was generated for it). -/
def demoChartBp : SlideBlueprint :=
  { slide_id := "slide_02", title := "Market analysis", key_question := ""
    core_insight := "", visual_type := "bar_chart", data_requirements := []
    position_in_deck := 2, slide_template := "chart_main" }

/-- Demo blueprint slide 3: a later `two_column` section that must survive. -/
def demoTwoColBp : SlideBlueprint :=
  { slide_id := "slide_03", title := "Recommendations", key_question := ""
    core_insight := "", visual_type := "none", data_requirements := []
    position_in_deck := 3, slide_template := "two_column" }

/-- Demo deck blueprint with the three sections above. -/
def demoDeck : DeckBlueprint :=
  { engagement_id := "e-1", client_name := "Acme"
    problem_statement := "How to grow?"
    slides := [demoTitleBp, demoChartBp, demoTwoColBp]
    hypothesis := "Growth hypothesis", methodology := "hypothesis-driven" }

/-- Demo slide content: only the `two_column` section has content. -/
def demoContent : List SlideContent :=
  [{ slide_id := "slide_03", title := "Recommendations"
     bullets := ["Expand into EU", "Invest in platform"]
     chart_caption := none, so_what_takeaway := none, call_to_action := none
     visual_config := [] }]

/-- Demo slide data: empty, so the `chart_main` section's visualization is
null. -/
def demoData : List SlideData := []

end ConsultingDeck

namespace LLMClientModel

theorem pyFindAux_append (c : Char) (pre rest : List Char) (hpre : c ∉ pre) (n : Nat) :
    pyFindAux c (pre ++ c :: rest) n = some (n + pre.length) := by
  induction pre generalizing n with
  | nil => simp [pyFindAux]
  | cons p ps ih =>
    have hp : p ≠ c := by
      intro h; exact hpre (by simp [h])
    have hps : c ∉ ps := fun h => hpre (List.mem_cons_of_mem _ h)
    simp only [List.cons_append, pyFindAux, if_neg hp, List.append_eq]
    rw [ih hps (n + 1)]
    congr 1
    simp only [List.length_cons]
    omega

theorem pyRfindAux_not_mem (c : Char) (l : List Char) (hc : c ∉ l)
    (n : Nat) (acc : Option Nat) : pyRfindAux c l n acc = acc := by
  induction l generalizing n acc with
  | nil => rfl
  | cons x xs ih =>
    have hx : x ≠ c := by
      intro h; exact hc (by simp [h])
    have hxs : c ∉ xs := fun h => hc (List.mem_cons_of_mem _ h)
    simp only [pyRfindAux, if_neg hx]
    exact ih hxs _ _

theorem pyRfindAux_append (c : Char) (front post : List Char) (hpost : c ∉ post)
    (n : Nat) (acc : Option Nat) :
    pyRfindAux c (front ++ c :: post) n acc = some (n + front.length) := by
  induction front generalizing n acc with
  | nil =>
    simp only [List.nil_append, pyRfindAux, List.length_nil, Nat.add_zero]
    rw [pyRfindAux_not_mem c post hpost]
    simp
  | cons f fs ih =>
    simp only [List.cons_append, pyRfindAux, List.append_eq]
    rw [ih _ _]
    congr 1
    simp only [List.length_cons]
    omega

theorem neg_one_le_pyFind (s : String) (c : Char) : -1 ≤ pyFind s c := by
  unfold pyFind
  rcases pyFindAux c s.toList 0 with _ | n
  · exact le_refl _
  · exact le_trans (by norm_num) (Int.ofNat_nonneg n)

theorem neg_one_le_pyRfind (s : String) (c : Char) : -1 ≤ pyRfind s c := by
  unfold pyRfind
  rcases pyRfindAux c s.toList 0 none with _ | n
  · exact le_refl _
  · exact le_trans (by norm_num) (Int.ofNat_nonneg n)

theorem pyFind_of_split (s : String) (c : Char) (pre rest : List Char)
    (hsplit : s.toList = pre ++ c :: rest) (hpre : c ∉ pre) :
    pyFind s c = (pre.length : Int) := by
  unfold pyFind
  rw [hsplit, pyFindAux_append c pre rest hpre 0]
  simp

theorem pyRfind_of_split (s : String) (c : Char) (front post : List Char)
    (hsplit : s.toList = front ++ c :: post) (hpost : c ∉ post) :
    pyRfind s c = (front.length : Int) := by
  unfold pyRfind
  rw [hsplit, pyRfindAux_append c front post hpost 0 none]
  simp

theorem extractJson_of_none {J : Type} (jsonLoads : String → Option J)
    (response : String) (hwhole : jsonLoads response = none) :
    extractJson jsonLoads response =
      if pyFind response '{' ≠ -1 ∧ pyRfind response '}' + 1 ≠ -1 then
        match jsonLoads
            (pySlice response (pyFind response '{').toNat
              (pyRfind response '}' + 1).toNat) with
        | some v => ParseOutcome.ok v
        | none =>
          ParseOutcome.decodeError
            (pySlice response (pyFind response '{').toNat
              (pyRfind response '}' + 1).toNat)
      else
        ParseOutcome.explicitError "Failed to parse LLM response as JSON" := by
  simp only [extractJson, hwhole]

end LLMClientModel

namespace LLMClientModel

/-- C3: when the whole response is not valid JSON and the response contains
both braces (first `'{'` after `pre`, last `'}'` after `front`), the
structured-generation step attempts `json.loads` exactly on the substring
from the first `'{'` to the last `'}'` inclusive, and when that parse
fails too the operation surfaces a parse error to the caller rather than
returning a partial result. -/
theorem extract_first_to_last_brace_fail_closed {J : Type}
    (jsonLoads : String → Option J) (response : String)
    (pre rest front post : List Char)
    (hwhole : jsonLoads response = none)
    (hsplit1 : response.toList = pre ++ '{' :: rest) (hpre : '{' ∉ pre)
    (hsplit2 : response.toList = front ++ '}' :: post) (hpost : '}' ∉ post) :
    (extractJson jsonLoads response
      = match jsonLoads (pySlice response pre.length (front.length + 1)) with
        | some v => ParseOutcome.ok v
        | none =>
          ParseOutcome.decodeError (pySlice response pre.length (front.length + 1)))
    ∧ (jsonLoads (pySlice response pre.length (front.length + 1)) = none →
        ∀ v, extractJson jsonLoads response ≠ ParseOutcome.ok v) := by
  have hf : pyFind response '{' = (pre.length : Int) :=
    pyFind_of_split response '{' pre rest hsplit1 hpre
  have hr : pyRfind response '}' = (front.length : Int) :=
    pyRfind_of_split response '}' front post hsplit2 hpost
  have hcond : pyFind response '{' ≠ -1 ∧ pyRfind response '}' + 1 ≠ -1 := by
    rw [hf, hr]; constructor <;> omega
  have h1 : (pyFind response '{').toNat = pre.length := by
    rw [hf]; exact Int.toNat_natCast _
  have h2 : (pyRfind response '}' + 1).toNat = front.length + 1 := by
    rw [hr]; omega
  have hmain : extractJson jsonLoads response
      = match jsonLoads (pySlice response pre.length (front.length + 1)) with
        | some v => ParseOutcome.ok v
        | none =>
          ParseOutcome.decodeError (pySlice response pre.length (front.length + 1)) := by
    rw [extractJson_of_none jsonLoads response hwhole, if_pos hcond, h1, h2]
  refine ⟨hmain, fun hnone v => ?_⟩
  rw [hmain, hnone]
  simp

/-- Witness for C3 at a concrete parser and response: the substring between
the braces of `"xx{1}yy"` parses, so the step succeeds. -/
theorem extract_first_to_last_brace_w :
    extractJson (fun s => if s = "{1}" then some (1 : Nat) else none) "xx{1}yy"
      = ParseOutcome.ok 1 := by
  have h := (extract_first_to_last_brace_fail_closed
    (fun s => if s = "{1}" then some (1 : Nat) else none) "xx{1}yy"
    ['x', 'x'] ['1', '}', 'y', 'y'] ['x', 'x', '{', '1'] ['y', 'y']
    (by decide) (by decide) (by decide) (by decide) (by decide)).1
  rw [h]
  decide

/-- C10: `rfind('}') + 1` is never `-1`, so the explicit
"Failed to parse LLM response as JSON" branch is reachable only when the
response has no `'{'` at all; and a response with a `'{'` but no `'}'`
makes the client run `json.loads` on the empty slice `response[start:0]`,
raising an unhandled decode error. -/
theorem json_guard_never_neg_one {J : Type} (jsonLoads : String → Option J)
    (response : String) (hempty : jsonLoads "" = none) :
    pyRfind response '}' + 1 ≠ -1
    ∧ (∀ msg, extractJson jsonLoads response = ParseOutcome.explicitError msg →
        pyFind response '{' = -1)
    ∧ (jsonLoads response = none → pyFind response '{' ≠ -1 →
        pyRfind response '}' = -1 →
        extractJson jsonLoads response = ParseOutcome.decodeError "") := by
  have hge : -1 ≤ pyRfind response '}' := neg_one_le_pyRfind response '}'
  refine ⟨by omega, ?_, ?_⟩
  · intro msg h
    cases hw : jsonLoads response with
    | some v => simp [extractJson, hw] at h
    | none =>
      rw [extractJson_of_none jsonLoads response hw] at h
      by_cases hc : pyFind response '{' ≠ -1 ∧ pyRfind response '}' + 1 ≠ -1
      · rw [if_pos hc] at h
        split at h <;> simp_all
      · have hb : pyRfind response '}' + 1 ≠ -1 := by omega
        have : ¬ pyFind response '{' ≠ -1 := fun ha => hc ⟨ha, hb⟩
        exact not_not.mp this
  · intro h1 h2 h3
    rw [extractJson_of_none jsonLoads response h1,
      if_pos (⟨h2, by omega⟩ : pyFind response '{' ≠ -1 ∧ pyRfind response '}' + 1 ≠ -1),
      h3]
    have hz : ((-1 : Int) + 1).toNat = 0 := by decide
    rw [hz]
    have hslice : pySlice response (pyFind response '{').toNat 0 = "" := by
      unfold pySlice
      simp
    rw [hslice, hempty]

/-- Witness for C10 at the concrete response `"abc\x7b"` (a `'{'` but no
`'}'`): the guard is non-negative and the outcome is the unhandled decode
error on the empty slice. -/
theorem json_guard_never_neg_one_w :
    pyRfind "abc\x7b" '}' + 1 ≠ -1
    ∧ extractJson (fun _ : String => (none : Option Nat)) "abc\x7b"
      = ParseOutcome.decodeError "" :=
  ⟨(@json_guard_never_neg_one Nat (fun _ => none) "abc\x7b" rfl).1,
   (@json_guard_never_neg_one Nat (fun _ => none) "abc\x7b" rfl).2.2 rfl (by decide) (by decide)⟩

/-- C4 counterexample: the claim says the schema-critical stages
(engagement structuring at 0.3, data generation at 0.2) run strictly
below the prose content stage; in the code the content stage runs at 0.1,
below both. -/
theorem temperature_schema_not_lower :
    ¬ (step1Temperature < step3Temperature ∧ step2Temperature < step3Temperature) := by
  intro h
  norm_num [step1Temperature, step2Temperature, step3Temperature] at h

/-- C4 (amended): each stage sets its own temperature per call (overriding
the 0.7 default), and the prose content-generation stage uses a strictly
lower temperature than both schema-critical stages. -/
theorem temperature_content_lowest :
    step3Temperature < step2Temperature ∧ step2Temperature < step1Temperature
    ∧ step1Temperature < defaultTemperature := by
  norm_num [step1Temperature, step2Temperature, step3Temperature, defaultTemperature]

end LLMClientModel

namespace FullyDynamic

/-- C1: the content loop produces exactly one content unit per blueprint
entry (same length, elementwise correspondence), and a failed generation
on an entry yields the deterministic fallback unit whose lead insight is
the entry's `key_message` — the entry is neither omitted nor does it
abort the others. -/
theorem content_units_match_blueprint
    (genContent : BlueprintEntry → Option ContentUnit)
    (slideBlueprint : List BlueprintEntry) :
    (generateContentSlides genContent slideBlueprint).length = slideBlueprint.length
    ∧ (∀ i : Nat, (generateContentSlides genContent slideBlueprint)[i]?
        = (slideBlueprint[i]?).map (generateDynamicSlideContent genContent))
    ∧ (∀ bp, genContent bp = none →
        generateDynamicSlideContent genContent bp = fallbackContent bp
        ∧ (generateDynamicSlideContent genContent bp).pyramid_lead = bp.key_message) := by
  refine ⟨?_, ?_, ?_⟩
  · simp [generateContentSlides]
  · intro i
    simp [generateContentSlides, List.getElem?_map]
  · intro bp h
    constructor
    · simp [generateDynamicSlideContent, h]
    · simp [generateDynamicSlideContent, h, fallbackContent]

/-- Witness for C1: with a generation service that always fails, the two
core slides still yield two content units, and a failed entry's lead
insight is its `key_message`. -/
theorem content_units_match_blueprint_w :
    (generateContentSlides (fun _ => none) coreSlides).length = coreSlides.length
    ∧ (generateDynamicSlideContent (fun _ => none)
        { slide_number := 4, title := "Deep dive", purpose := "analysis"
          visual_type := "bar_chart", content_type := "analysis"
          key_message := "Demand concentrates in two segments"
          business_question := "", estimated_time := "" }).pyramid_lead
      = "Demand concentrates in two segments" :=
  ⟨(content_units_match_blueprint (fun _ => none) coreSlides).1,
   ((content_units_match_blueprint (fun _ => none) coreSlides).2.2 _ rfl).2⟩

/-- C5 counterexample: for the recommended section count 11 (within the
claimed range [8, 20]) the fallback blueprint has only 10 entries, not
`2 + (11 - 2) = 11`: the generic entries are capped by
`range(2, min(slide_count, 10))`. -/
theorem fallback_blueprint_caps_at_ten :
    8 ≤ 11 ∧ 11 ≤ 20 ∧ (generateFallbackBlueprint 11).length ≠ 11
    ∧ (generateFallbackBlueprint 11).length = 10 := by
  decide

/-- C5 (amended): for every section count `n` in [8, 20] the fallback
blueprint is the two fixed lead entries followed by `min n 10 - 2`
generic analysis entries (so `n - 2` only when `n ≤ 10`), with slide
numbers exactly `1, ..., min n 10`, all distinct. -/
theorem fallback_blueprint_shape (n : Nat) (h8 : 8 ≤ n) (h20 : n ≤ 20) :
    (generateFallbackBlueprint n).length = min n 10
    ∧ (generateFallbackBlueprint n).take 2 = coreSlides
    ∧ (∀ e ∈ (generateFallbackBlueprint n).drop 2,
        e.purpose = "analysis" ∧ e.content_type = "analysis")
    ∧ (generateFallbackBlueprint n).map (fun e => e.slide_number)
      = List.range' 1 (min n 10)
    ∧ ((generateFallbackBlueprint n).map (fun e => e.slide_number)).Nodup := by
  interval_cases n <;> decide

/-- Witness for C5 (amended) at section count 12: the blueprint caps at 10
entries with slide numbers 1..10. -/
theorem fallback_blueprint_shape_w :
    (generateFallbackBlueprint 12).length = min 12 10
    ∧ (generateFallbackBlueprint 12).take 2 = coreSlides
    ∧ (∀ e ∈ (generateFallbackBlueprint 12).drop 2,
        e.purpose = "analysis" ∧ e.content_type = "analysis")
    ∧ (generateFallbackBlueprint 12).map (fun e => e.slide_number)
      = List.range' 1 (min 12 10)
    ∧ ((generateFallbackBlueprint 12).map (fun e => e.slide_number)).Nodup :=
  fallback_blueprint_shape 12 (by norm_num) (by norm_num)

/-- C6 counterexample: in a pool whose first fifteen collected results have
relevance score 0 and whose sixteenth has score 1, the retained list is
the first fifteen (all score 0) while the score-1 result is discarded —
a discarded result outscores every retained one, so the retained list is
not the top of the pool by score. -/
theorem retained_sources_ignore_score :
    (demoPool.drop 15).map SearchSource.score = [1]
    ∧ (retainedPrimarySources demoPool).map SearchSource.score
      = List.replicate 15 0
    ∧ (0 : ℚ) < 1 := by
  refine ⟨rfl, rfl, by norm_num⟩

/-- C6 (amended): the retained primary-source list is the first
`min 15 |pool|` collected results in collection order (a prefix of the
pool, no reordering by relevance score), hence at most 15 entries. -/
theorem retained_sources_are_pool_head (pool : List SearchSource) :
    (retainedPrimarySources pool).length ≤ 15
    ∧ retainedPrimarySources pool <+: pool := by
  constructor
  · unfold retainedPrimarySources
    rw [List.length_take]
    omega
  · exact List.take_prefix 15 pool

/-- C7: whenever the CAGR string parses (after stripping `%`) to the
rational `parsed`, the synthesized growth series is the 5-period
compounding series `100 * (1 + parsed/100) ^ i`, `i = 0..4`; for the
input `"10%"` the series is exactly `[100, 110, 121, 133.1, 146.41]`
(exact rationals, hence within the claimed ±0.01). -/
theorem growth_series_compounds (s : String) (parsed : ℚ)
    (hparse : parseFloatQ (stripPercent s) = some parsed) :
    growthTrajectory s
      = some ((List.range 5).map fun i => (100 : ℚ) * (1 + parsed / 100) ^ i)
    ∧ growthTrajectory "10%" = some [100, 110, 121, 1331/10, 14641/100] := by
  constructor
  · simp [growthTrajectory, hparse]
  · have h10 : parseFloatQ (stripPercent "10%") = some ((10 : Nat) : ℚ) := rfl
    simp only [growthTrajectory, h10, Option.map_some]
    have h5 : List.range 5 = [0, 1, 2, 3, 4] := rfl
    rw [h5]
    simp only [List.map_cons, List.map_nil]
    norm_num

/-- Witness for C7 at the claim's concrete input `cagr_3yr = "10%"`. -/
theorem growth_series_at_ten_percent :
    growthTrajectory "10%" = some [100, 110, 121, 1331/10, 14641/100] :=
  (growth_series_compounds "10%" ((10 : Nat) : ℚ) rfl).2

/-- C8 counterexample: the first value `"$12%"` contains `'%'`, yet the
inferred label is the currency one and does not contain "Percentage":
the `'$'`/magnitude check takes priority over the `'%'` check. -/
theorem ylabel_currency_overrides_percent :
    ("$12%".toList.contains '%') = true
    ∧ getDynamicYlabel ["$12%"] = "Market Size ($ Billions)"
    ∧ ¬ ("Percentage".toList <:+: (getDynamicYlabel ["$12%"]).toList) := by
  refine ⟨rfl, rfl, by decide⟩

/-- C8 (amended): the label is determined by the literal formatting of the
first value; `'$'`/`'B'`/`'M'` yields a label containing "Market Size",
and `'%'` yields the "Percentage (%)" label only when no
`'$'`/`'B'`/`'M'` is present (the currency check takes priority). -/
theorem ylabel_unit_inference (v : String) (rest : List String) :
    ((v.toList.contains '$' || v.toList.contains 'B' || v.toList.contains 'M') = true →
      "Market Size".toList <:+: (getDynamicYlabel (v :: rest)).toList)
    ∧ ((v.toList.contains '%') = true →
        (v.toList.contains '$' || v.toList.contains 'B' || v.toList.contains 'M') = false →
      getDynamicYlabel (v :: rest) = "Percentage (%)") := by
  constructor
  · intro h
    simp only [getDynamicYlabel, h, if_true]
    decide
  · intro hp hno
    have hcond :
        ¬ ((v.toList.contains '$' || v.toList.contains 'B' || v.toList.contains 'M')
          = true) := by
      rw [hno]
      simp
    simp only [getDynamicYlabel, if_neg hcond, if_pos hp]

/-- Witness for C8 (amended) at the claim's two concrete inputs. -/
theorem ylabel_unit_inference_w :
    getDynamicYlabel ["12%", "8%"] = "Percentage (%)"
    ∧ "Market Size".toList <:+: (getDynamicYlabel ["$5.2B", "$2.1B", "$800M"]).toList :=
  ⟨(ylabel_unit_inference "12%" ["8%"]).2 (by decide) (by decide),
   (ylabel_unit_inference "$5.2B" ["$2.1B", "$800M"]).1 (by decide)⟩

/-- C9 counterexample: the fallback query hardcodes the year literal 2024;
for a run in 2026 it does not equal the spec's
`"{problem} {focus_area} analysis {current_year}"`. -/
theorem fallback_query_year_hardcoded :
    queriesForArea (fun _ => none) "grow revenue" "market sizing"
      = ["grow revenue market sizing analysis 2024"]
    ∧ queriesForArea (fun _ => none) "grow revenue" "market sizing"
      ≠ [specFallbackQuery "grow revenue" "market sizing" 2026] := by
  refine ⟨rfl, by decide⟩

/-- C9 (amended): for every focus area whose query-generation call fails,
the substituted query is exactly the spec's format with the year fixed to
the literal 2024 (not the year at the time of the run). -/
theorem fallback_query_on_failure (genQueries : String → Option (List String))
    (problem area : String) (hfail : genQueries area = none) :
    queriesForArea genQueries problem area
      = [specFallbackQuery problem area 2024] := by
  have hy : (" analysis " ++ toString (2024 : Nat) : String) = " analysis 2024" := by
    decide
  simp only [queriesForArea, hfail, fallbackQuery, specFallbackQuery, List.cons.injEq,
    and_true]
  conv_rhs => rw [String.append_assoc, hy]

/-- Witness for C9 (amended) at a failing generator and concrete inputs. -/
theorem fallback_query_on_failure_w :
    queriesForArea (fun _ => none) "expand into EU retail" "competitive landscape"
      = [specFallbackQuery "expand into EU retail" "competitive landscape" 2024] :=
  fallback_query_on_failure (fun _ => none) "expand into EU retail"
    "competitive landscape" rfl

end FullyDynamic

namespace ConsultingDeck

/-- C2 counterexample: a concrete run with a `chart_main` section whose
visualization is null (no slide data was generated for `slide_02`): the
renderer completes and still renders the later section, but it emits no
slide at all for the `chart_main` section — no degraded bulleted-text
layout appears. -/
theorem chart_main_null_not_rendered :
    demoChartBp.slide_template = "chart_main"
    ∧ computeChartMain demoChartGen demoChartBp (dataLookupOf demoData "slide_02")
        (contentLookupOf demoContent "slide_02") = none
    ∧ renderPowerpoint demoChartGen demoDeck demoContent demoData
      = [RenderedSlide.titleSlide "Engagement Overview" "Growth hypothesis" "Acme",
         RenderedSlide.twoColumn "Recommendations" ["Expand into EU"]
           ["Invest in platform"]]
    ∧ (∀ s ∈ renderPowerpoint demoChartGen demoDeck demoContent demoData,
        slideTitle s ≠ "Market analysis") := by
  refine ⟨rfl, rfl, rfl, by decide⟩

/-- C2 (amended): a non-title `chart_main` section whose computed
visualization is null adds no slide of any kind; the rendering loop
simply continues with the remaining sections and never aborts. -/
theorem chart_main_null_skips_section
    (chartGen : String → ChartData → Option String → String)
    (deck : DeckBlueprint) (contentLookup : String → Option SlideContent)
    (dataLookup : String → Option SlideData) (i : Nat) (bp : SlideBlueprint)
    (rest : List SlideBlueprint) (hi : ¬ i = 0)
    (htmpl : bp.slide_template = "chart_main")
    (hnull : computeChartMain chartGen bp (dataLookup bp.slide_id)
        (contentLookup bp.slide_id) = none) :
    renderBody chartGen deck contentLookup dataLookup i (bp :: rest)
      = renderBody chartGen deck contentLookup dataLookup (i + 1) rest := by
  have hnot2 : ¬ bp.slide_template = "two_column" := by
    rw [htmpl]
    decide
  simp only [renderBody, renderSlideAt, if_neg hi, if_neg hnot2, if_pos htmpl, hnull,
    Option.toList_none, List.nil_append]

/-- Witness for C2 (amended) on the demo deck: at index 1 the null-chart
section contributes nothing and rendering proceeds with the remaining
section. -/
theorem chart_main_null_skips_section_w :
    renderBody demoChartGen demoDeck (contentLookupOf demoContent)
        (dataLookupOf demoData) 1 [demoChartBp, demoTwoColBp]
      = renderBody demoChartGen demoDeck (contentLookupOf demoContent)
        (dataLookupOf demoData) 2 [demoTwoColBp] :=
  chart_main_null_skips_section demoChartGen demoDeck (contentLookupOf demoContent)
    (dataLookupOf demoData) 1 demoChartBp [demoTwoColBp] (by decide) rfl (by decide)

end ConsultingDeck
